import Mathlib

/-!
Shallow embedding of the UDP socket core (src/kernel/udp.c) and of the
virtio-MMIO block driver core (src/kernel/virtio.c) of the sos kernel.
Pure computations are translated into Lean functions; the mutable global
state (the UDP endpoint hash table, the socket table, the static ephemeral
cursor, the virtqueue memory) is threaded explicitly through a state record.
Machine integers are modelled as Nat with explicit reductions modulo 2^16
where the C code relies on 16-bit wraparound.
-/

/-- Modelled from the spec: errno constants (errno.h is not under src/).
The concrete numeric values are the conventional ones; no claim depends on
the values themselves, only on which code is returned. -/
def EINVAL : Int := 22

/-- Modelled from the spec: errno constant, see `EINVAL`. -/
def EFAULT : Int := 14

/-- Modelled from the spec: errno constant, see `EINVAL`. -/
def EMSGSIZE : Int := 90

/-- Modelled from the spec: errno constant, see `EINVAL`. -/
def EDESTADDRREQ : Int := 89

/-- Modelled from the spec: errno constant, see `EINVAL`. -/
def EADDRINUSE : Int := 98

/-- Modelled from the spec: errno constant, see `EINVAL`. -/
def EADDRNOTAVAIL : Int := 99

/-- src/kernel/udp.c line 13: `#define UDP_HLIST_SIZE 128`. -/
def UDP_HLIST_SIZE : Nat := 128

/-- Modelled from the spec (§6): IP protocol number of UDP. -/
def IPPROTO_UDP : Nat := 17

/-- Modelled from the spec (§4.9, "max Ethernet frame"): the constant is
defined outside src/; the conventional value 1514 is used. -/
def MAX_ETH_PKT_SIZE : Nat := 1514

/-- `sizeof(struct udphdr)`: 8 bytes (spec §6, wire format). -/
def SIZEOF_UDPHDR : Nat := 8

/-- `sizeof(struct sockaddr_in)` (modelled from the spec: a v4
socket-address length; the conventional 16 bytes). -/
def SIZEOF_SOCKADDR_IN : Nat := 16

/-- Modelled from the spec (§6): `ip_reserve()` returns the bytes of header
reserve below the transport cursor; its definition is outside src/. The
value (Ethernet 14 + IPv4 20) is a representative constant; no claim
depends on its exact value. -/
def ip_reserve : Nat := 34

/-- src/kernel/udp.c lines 113-116: `udp_reserve`. -/
def udp_reserve : Nat := ip_reserve + SIZEOF_UDPHDR

/-- Byte swap of a 16-bit value. -/
def swap16 (p : Nat) : Nat := p % 256 * 256 + p / 256 % 256

/-- Modelled from the spec: `htons` (net.h is not under src/). Spec §9
records that `lookup_entry` stores host-order ports while the probes pass
`htons` values and calls this "a byte-order mismatch that may allocate
duplicates"; hence the machine is little-endian and `htons` swaps the two
bytes of a 16-bit value. -/
def htons (p : Nat) : Nat := swap16 p

/-- Modelled from the spec: `ntohs`, see `htons`. -/
def ntohs (p : Nat) : Nat := swap16 p

/-- `struct sockaddr_in`: the fields the UDP code uses. `sin_port` holds
the raw 16-bit field value (network byte order, as user space stores it);
`sin_addr` the 32-bit IPv4 address. -/
structure SockAddrIn where
  sin_port : Nat
  sin_addr : Nat
deriving DecidableEq, Repr, Inhabited

/-- A packet as the UDP layer sees it: the UDP header fields stored in the
buffer (raw 16-bit field values as read back from memory) and the
application payload bytes (the region from `al` to `end`). -/
structure Packet where
  udp_src_port : Nat
  udp_dst_port : Nat
  payload : List Nat
deriving DecidableEq, Repr, Inhabited

/-- `struct socket`: source/destination address, flag bits, receive queue.
`recvwaitWoken` records that `wait_list_awaken(&sock->recvwait)` was
invoked on the socket's recv wait list. -/
structure Socket where
  src : SockAddrIn
  dst : SockAddrIn
  sk_bound : Bool
  sk_connected : Bool
  recvq : List Packet
  recvwaitWoken : Bool
deriving DecidableEq, Repr, Inhabited

/-- `struct udp_wait_entry` (src/kernel/udp.c lines 5-11): either a
socket-bound entry (`sockId = some sid`, referencing the socket table) or a
one-shot process waiter (`sockId = none`). `port` is stored in host byte
order (`ntohs` applied at bind, line 132). `procReady` models
`entry->proc->flags.pr_ready`; `rcv` the waiter's packet slot. -/
structure UdpEntry where
  sockId : Option Nat
  port : Nat
  procReady : Bool
  rcv : Option Packet
deriving DecidableEq, Repr, Inhabited

/-- The global mutable state of the UDP core: the endpoint hash table
`udp_hlist` (128 buckets, head insertion), the socket table (sockets
referenced by index), the static ephemeral cursor `i` of
`udp_bind_to_ephemeral` (line 145), and the interface IP `nif.ip`. -/
structure UdpState where
  buckets : List (List UdpEntry)
  sockets : List Socket
  ephCursor : Nat
  nifIp : Nat
deriving DecidableEq, Repr, Inhabited

/-- src/kernel/udp.c lines 16-19: `udp_hash`. -/
def udp_hash (port : Nat) : Nat := port % UDP_HLIST_SIZE

/-- src/kernel/udp.c lines 21-31: `lookup_entry` scans the bucket of
`udp_hash port` for an entry whose stored port equals the query. -/
def lookup_entry (st : UdpState) (port : Nat) : Option UdpEntry :=
  (st.buckets.getD (udp_hash port) []).find? (fun e => e.port == port)

/-- src/kernel/udp.c lines 118-136: `udp_do_bind`. Allocates a persistent
socket-bound entry with the port in host order, inserts it at the head of
its bucket (`hlist_insert`), copies the address into the socket's source
field and sets the bound flag. -/
def udp_do_bind (st : UdpState) (sid : Nat) (addr : SockAddrIn) : UdpState :=
  let hash := udp_hash (ntohs addr.sin_port)
  let entry : UdpEntry := { sockId := some sid, port := ntohs addr.sin_port,
                            procReady := false, rcv := none }
  let st1 := { st with buckets := st.buckets.set hash (entry :: st.buckets.getD hash []) }
  let sock := st1.sockets.getD sid default
  { st1 with sockets := st1.sockets.set sid { sock with src := addr, sk_bound := true } }

/-- src/kernel/udp.c lines 166-190: `udp_bind`. `copyRes` is the outcome of
`copy_from_user` on the user address (error code, or the copied address).
Note the occupancy probe passes `addr.sin_port` raw (network byte order)
to `lookup_entry`, which stores host-order ports. -/
def udp_bind (st : UdpState) (sid : Nat) (address_len : Nat)
    (copyRes : Except Int SockAddrIn) : Int × UdpState :=
  let sock := st.sockets.getD sid default
  if sock.sk_bound then (-EINVAL, st)
  else if address_len ≠ SIZEOF_SOCKADDR_IN then (-EINVAL, st)
  else
    match copyRes with
    | Except.error e => (e, st)
    | Except.ok addr =>
      if addr.sin_addr ≠ 0 ∧ addr.sin_addr ≠ st.nifIp then (-EADDRNOTAVAIL, st)
      else if (lookup_entry st addr.sin_port).isSome then (-EADDRINUSE, st)
      else (0, udp_do_bind st sid addr)

/-- src/kernel/udp.c lines 192-211: `udp_connect`. Validates the address
length, copies the address in, stores it as the socket's destination and
sets the connected flag. -/
def udp_connect (sock : Socket) (address_len : Nat)
    (copyRes : Except Int SockAddrIn) : Int × Socket :=
  if address_len ≠ SIZEOF_SOCKADDR_IN then (-EINVAL, sock)
  else
    match copyRes with
    | Except.error e => (e, sock)
    | Except.ok addr => (0, { sock with dst := addr, sk_connected := true })

/-- src/kernel/udp.c lines 149-162: the `while (tries--)` loop of
`udp_bind_to_ephemeral`, with the remaining try count as fuel. Each
iteration advances the cursor (wrapping from 65535 back to 20000) and
probes the previous cursor value: `lookup_entry(htons(prev))`. -/
def udp_bind_to_ephemeral_loop (sid : Nat) : UdpState → Nat → Bool × UdpState
  | st, 0 => (false, st)
  | st, Nat.succ tries =>
    let prev := st.ephCursor
    let st1 := { st with ephCursor := if prev = 65535 then 20000 else prev + 1 }
    if (lookup_entry st1 (htons prev)).isNone then
      (true, udp_do_bind st1 sid { sin_port := htons prev, sin_addr := 0 })
    else
      udp_bind_to_ephemeral_loop sid st1 tries

/-- src/kernel/udp.c lines 138-164: `udp_bind_to_ephemeral` tries up to 100
candidates starting at the static cursor. -/
def udp_bind_to_ephemeral (st : UdpState) (sid : Nat) : Bool × UdpState :=
  udp_bind_to_ephemeral_loop sid st 100

/-- Observer: how many entries for host-order port `p` exist in the whole
endpoint table (across all buckets). -/
def entriesWithPort (st : UdpState) (p : Nat) : Nat :=
  (st.buckets.map (fun b => (b.filter (fun e => e.port == p)).length)).sum

/-- The empty endpoint table of `udp_init` (lines 311-318) with `n` fresh
sockets, the ephemeral cursor at its initial value 20000, and interface
IP `ip`. -/
def initState (n : Nat) (ip : Nat) : UdpState :=
  { buckets := List.replicate UDP_HLIST_SIZE [], sockets := List.replicate n default,
    ephCursor := 20000, nifIp := ip }

/-- Outcome of one `udp_recv` call: the packet went to the receive queue of
socket `sid`, or into the slot of the one-shot waiter at position `i` of
the bucket, or was freed after the diagnostic message. -/
inductive RecvOutcome where
  | toSocket (sid : Nat)
  | toWaiter (i : Nat)
  | dropped
deriving DecidableEq, Repr

/-- src/kernel/udp.c lines 70-85: the `list_for_each_entry` walk of
`udp_recv` over the destination port's bucket. A socket-bound entry
(`entry->sock` non-null) wins unconditionally — its stored port is not
compared (the TODO at lines 73-74); a one-shot waiter wins only if its
port equals the packet's destination port, in which case its `rcv` slot
receives the packet and its process is marked ready. Returns the outcome
and the updated bucket. -/
def udp_recv_walk (dstp : Nat) (pkt : Packet) : List UdpEntry → RecvOutcome × List UdpEntry
  | [] => (RecvOutcome.dropped, [])
  | e :: rest =>
    match e.sockId with
    | some sid => (RecvOutcome.toSocket sid, e :: rest)
    | none =>
      if e.port = dstp then
        (RecvOutcome.toWaiter 0, { e with rcv := some pkt, procReady := true } :: rest)
      else
        let r := udp_recv_walk dstp pkt rest
        (match r.1 with
         | RecvOutcome.toWaiter i => RecvOutcome.toWaiter (i + 1)
         | o => o,
         e :: r.2)

/-- The effect of delivery to a socket: `list_insert_end(&sock->recvq, ...)`
followed by `wait_list_awaken(&sock->recvwait)` (src/kernel/udp.c lines
75-76). -/
def recvqAppend (sock : Socket) (pkt : Packet) : Socket :=
  { sock with recvq := sock.recvq ++ [pkt], recvwaitWoken := true }

/-- src/kernel/udp.c lines 63-88: `udp_recv`. Hashes the destination port
(`ntohs` of the raw header field), walks that bucket, and on a socket hit
appends the packet to the socket's receive queue (`list_insert_end`) and
awakens the socket's recv wait list; the packet-free of the no-match case
is conveyed by the `dropped` outcome. -/
def udp_recv (st : UdpState) (pkt : Packet) : RecvOutcome × UdpState :=
  let dstp := ntohs pkt.udp_dst_port
  let hash := udp_hash dstp
  let bucket := st.buckets.getD hash []
  let r := udp_recv_walk dstp pkt bucket
  let st1 := { st with buckets := st.buckets.set hash r.2 }
  match r.1 with
  | RecvOutcome.toSocket sid =>
    let sock := st1.sockets.getD sid default
    (RecvOutcome.toSocket sid, { st1 with sockets := st1.sockets.set sid (recvqAppend sock pkt) })
  | o => (o, st1)

/-- The first entry of a bucket that `udp_recv`'s walk stops at, together
with its position: a socket-bound entry (regardless of its stored port) or
a one-shot waiter whose port equals the destination port. -/
def recv_first_hit (dstp : Nat) : List UdpEntry → Option (Nat × UdpEntry)
  | [] => none
  | e :: rest =>
    if e.sockId.isSome ∨ e.port = dstp then some (0, e)
    else (recv_first_hit dstp rest).map (fun p => (p.1 + 1, p.2))

/-- src/kernel/udp.c lines 259-267: `socket_recvq_get` returns the first
packet of the socket's receive queue, if any. -/
def socket_recvq_get (sock : Socket) : Option Packet :=
  sock.recvq.head?

/-- Result of `udp_sys_recv`: a return value, or the blocking of the
calling process on the socket's recv wait list (the `wait_for` loop at
lines 284-287, which this shallow embedding cannot enter). -/
inductive SysRecvResult where
  | ret (n : Int)
  | wouldBlock
deriving DecidableEq, Repr

/-- src/kernel/udp.c lines 269-301: `udp_sys_recv`. `len` is the user
buffer length; `copyErr` the outcome of `copy_to_user` (`some e` on
fault). Returns the result, the new state, and the list of packets freed
by the call. On `EMSGSIZE` (and on a copy fault) the function returns
without unlinking or freeing the head packet. On success the packet —
which is the head of the queue — is unlinked (`list_remove`) and freed. -/
def udp_sys_recv (st : UdpState) (sid : Nat) (len : Nat) (copyErr : Option Int) :
    SysRecvResult × UdpState × List Packet :=
  let sock := st.sockets.getD sid default
  if sock.sk_bound = false then (SysRecvResult.ret (-EINVAL), st, [])
  else
    match socket_recvq_get sock with
    | none => (SysRecvResult.wouldBlock, st, [])
    | some pkt =>
      let pktlen := pkt.payload.length
      if pktlen > len then (SysRecvResult.ret (-EMSGSIZE), st, [])
      else
        match copyErr with
        | some e => (SysRecvResult.ret e, st, [])
        | none =>
          let sock1 := { sock with recvq := sock.recvq.tail }
          (SysRecvResult.ret pktlen, { st with sockets := st.sockets.set sid sock1 }, [pkt])

/-- Modelled from the spec (§6): the one's-complement checksum fold of the
`csum_*` helpers (their definitions are outside src/): carries above bit 16
are folded back until the accumulator fits 16 bits. Structural fuel is
used; `fuel = a` always suffices because each step strictly decreases the
accumulator. -/
def csum_foldAux : Nat → Nat → Nat
  | 0, a => a
  | Nat.succ fuel, a =>
    if a < 65536 then a else csum_foldAux fuel (a % 65536 + a / 65536)

/-- One's-complement fold of an accumulator into 16 bits. -/
def csum_fold (a : Nat) : Nat := csum_foldAux a a

/-- Modelled from the spec (§6): `csum_init`. The accumulator starts at
zero. -/
def csum_init : Nat := 0

/-- Modelled from the spec (§6): `csum_add` accumulates 16-bit words. -/
def csum_add (a : Nat) (ws : List Nat) : Nat := a + ws.sum

/-- Modelled from the spec (§6): `csum_add_value` accumulates one 16-bit
value. -/
def csum_add_value (a v : Nat) : Nat := a + v

/-- Modelled from the spec (§6): `csum_finalize` folds the accumulator and
returns its 16-bit one's complement. -/
def csum_finalize (a : Nat) : Nat := 65535 - csum_fold a

/-- The two 16-bit words of a 32-bit value as read from little-endian
memory, low word first (how `csum_add(&csum, &src_ip, 2)` reads an IPv4
address). -/
def words32 (v : Nat) : List Nat := [v % 65536, v / 65536 % 65536]

/-- Byte pairs of a little-endian byte buffer as 16-bit words; an odd
trailing byte is padded with a zero byte (spec §4.4: the payload length
for checksum purposes is rounded up to the next 16-bit word, zero-padded). -/
def toWords : List Nat → List Nat
  | [] => []
  | [b] => [b]
  | b0 :: b1 :: rest => (b0 + 256 * b1) :: toWords rest

/-- The UDP datagram a successful send emits: the four header fields as
written into the buffer (raw 16-bit values) and the payload bytes. -/
structure UdpDatagram where
  src_port : Nat
  dst_port : Nat
  len_field : Nat
  csum_field : Nat
  payload : List Nat
deriving DecidableEq, Repr, Inhabited

/-- src/kernel/udp.c lines 90-111: `udp_send`. Writes the UDP header at the
transport cursor: the raw port fields, `len = htons(end - tl)`, checksum
initially zero; accumulates the pseudo-header (source IP, destination IP,
`ntohs(IPPROTO_UDP)`, the length field), then the UDP header and payload
over `len_rounded` words, and stores the finalized checksum. `end - tl`
is the payload length plus the 8-byte header. -/
def udp_send (src_ip dst_ip src_port dst_port : Nat) (payload : List Nat) : UdpDatagram :=
  let len_field := htons (payload.length + SIZEOF_UDPHDR)
  let c0 := csum_init
  let c1 := csum_add c0 (words32 src_ip)
  let c2 := csum_add c1 (words32 dst_ip)
  let c3 := csum_add_value c2 (ntohs IPPROTO_UDP)
  let c4 := csum_add c3 [len_field]
  let c5 := csum_add c4 ([src_port, dst_port, len_field, 0] ++ toWords payload)
  { src_port := src_port, dst_port := dst_port, len_field := len_field,
    csum_field := csum_finalize c5, payload := payload }

/-- Checksum verification as the spec states it (§8): the one's-complement
sum over pseudo-header {src ip, dst ip, protocol, udp length} plus the UDP
header (including the transmitted checksum) and the zero-padded payload,
finalized; a correct datagram verifies to zero. -/
def checksum_verify (src_ip dst_ip : Nat) (d : UdpDatagram) : Nat :=
  csum_finalize (csum_add csum_init
    (words32 src_ip ++ words32 dst_ip ++ [ntohs IPPROTO_UDP, d.len_field]
      ++ [d.src_port, d.dst_port, d.len_field, d.csum_field] ++ toWords d.payload))

/-- Result of `udp_sys_send`: the return value, the state after the call,
the datagram handed to `ip_send` with its source and destination IP (none
when no send happened), and whether a packet was allocated and whether it
was freed inside the call. -/
structure SysSendResult where
  retval : Int
  state : UdpState
  emitted : Option (Nat × Nat × UdpDatagram)
  pktAllocated : Bool
  pktFreed : Bool
deriving DecidableEq, Repr

/-- src/kernel/udp.c lines 213-257: `udp_sys_send`. `userData` is the
outcome of `copy_from_user` on the user payload (fault code, or the `len`
copied bytes). Checks the frame size, requires a connected socket, binds
an unbound socket to an ephemeral port, allocates a packet, copies the
payload (freeing the packet and returning the fault code on error), picks
the source IP (socket source if non-zero, else the interface IP) and
invokes `udp_send`. -/
def udp_sys_send (st : UdpState) (sid : Nat) (len : Nat)
    (userData : Except Int (List Nat)) : SysSendResult :=
  let sock := st.sockets.getD sid default
  if udp_reserve + len > MAX_ETH_PKT_SIZE then
    { retval := -EMSGSIZE, state := st, emitted := none, pktAllocated := false, pktFreed := false }
  else if sock.sk_connected = false then
    { retval := -EDESTADDRREQ, state := st, emitted := none, pktAllocated := false, pktFreed := false }
  else
    let b := if sock.sk_bound = false then udp_bind_to_ephemeral st sid else (true, st)
    if b.1 = false then
      { retval := -EADDRINUSE, state := b.2, emitted := none, pktAllocated := false, pktFreed := false }
    else
      match userData with
      | Except.error e =>
        { retval := e, state := b.2, emitted := none, pktAllocated := true, pktFreed := true }
      | Except.ok bytes =>
        let sock1 := b.2.sockets.getD sid default
        let src := if sock1.src.sin_addr ≠ 0 then sock1.src.sin_addr else b.2.nifIp
        let d := udp_send src sock1.dst.sin_addr sock1.src.sin_port sock1.dst.sin_port bytes
        { retval := (len : Int), state := b.2, emitted := some (src, sock1.dst.sin_addr, d),
          pktAllocated := true, pktFreed := false }

/-- src/kernel/virtio.c line 13: the virtio-MMIO magic value ("virt" LE). -/
def VIRTIO_MAGIC : Nat := 0x74726976

/-- src/kernel/virtio.c line 14: supported virtio-MMIO version. -/
def VIRTIO_VERSION : Nat := 2

/-- src/kernel/virtio.c line 15: the block device id. -/
def VIRTIO_DEV_BLK : Nat := 2

/-- Modelled from the spec (§6, status bits; virtio.h is not under src/). -/
def VIRTIO_STATUS_ACKNOWLEDGE : Nat := 1

/-- Modelled from the spec (§6, status bits). -/
def VIRTIO_STATUS_DRIVER : Nat := 2

/-- Modelled from the spec (§6, status bits). -/
def VIRTIO_STATUS_DRIVER_OK : Nat := 4

/-- Modelled from the spec (§6, status bits). -/
def VIRTIO_STATUS_FEATURES_OK : Nat := 8

/-- Modelled from the spec (§6, descriptor flags). -/
def VIRTQ_DESC_F_NEXT : Nat := 1

/-- Modelled from the spec (§6, descriptor flags). -/
def VIRTQ_DESC_F_WRITE : Nat := 2

/-- Modelled from the spec (§6, block device constants). -/
def VIRTIO_BLK_SECTOR_SIZE : Nat := 512

/-- Modelled from the spec (§6): request type of a block read. -/
def VIRTIO_BLK_T_IN : Nat := 0

/-- Modelled from the spec (§6): block request header size, 16 bytes. -/
def VIRTIO_BLK_REQ_HEADER_SIZE : Nat := 16

/-- Modelled from the spec (§6): block request footer size, 1 byte
(the status byte). -/
def VIRTIO_BLK_REQ_FOOTER_SIZE : Nat := 1

/-- Modelled from the spec: `PAGE_SIZE` (defined outside src/); the
conventional 4096-byte page, consistent with spec §8 scenario 5 where the
length-128 virtqueue (3358 bytes) must fit a page. -/
def PAGE_SIZE : Nat := 4096

/-- Modelled from the spec (§8 scenario 5: `off_desc = 16`, hence
`ALIGN(sizeof(struct virtqueue), 16) = 16`): size of the `struct virtqueue`
bookkeeping header at the start of the page (virtio.h is not under src/). -/
def SIZEOF_VIRTQUEUE : Nat := 16

/-- `sizeof(struct virtqueue_desc)`: 64-bit addr + 32-bit len + two 16-bit
fields = 16 bytes (spec §3). -/
def SIZEOF_VIRTQUEUE_DESC : Nat := 16

/-- `sizeof(struct virtqueue_avail)`: flags + idx, 4 bytes before the
flexible ring (spec §3 and §8 scenario 5). -/
def SIZEOF_VIRTQUEUE_AVAIL : Nat := 4

/-- `sizeof(struct virtqueue_used)`: flags + idx, 4 bytes before the
flexible ring (spec §3 and §8 scenario 5). -/
def SIZEOF_VIRTQUEUE_USED : Nat := 4

/-- `sizeof(struct virtqueue_used_elem)`: id (32b) + len (32b) = 8 bytes. -/
def SIZEOF_VIRTQUEUE_USED_ELEM : Nat := 8

/-- The `ALIGN(x, a)` macro (kernel.h, not under src/): round `x` up to a
multiple of `a`. -/
def ALIGN (x a : Nat) : Nat := (x + a - 1) / a * a

/-- The sub-region offsets and total size `virtq_create` computes
(src/kernel/virtio.c lines 73-83). -/
structure VirtqLayout where
  off_desc : Nat
  off_avail : Nat
  off_used_event : Nat
  off_used : Nat
  off_avail_event : Nat
  memsize : Nat
deriving DecidableEq, Repr

/-- src/kernel/virtio.c lines 73-83: the offset computation of
`virtq_create` for a queue of length `len`. -/
def virtq_layout (len : Nat) : VirtqLayout :=
  let off_desc := ALIGN SIZEOF_VIRTQUEUE 16
  let off_avail := ALIGN (off_desc + len * SIZEOF_VIRTQUEUE_DESC) 2
  let off_used_event := off_avail + SIZEOF_VIRTQUEUE_AVAIL + len * 2
  let off_used := ALIGN (off_used_event + 2) 4
  let off_avail_event := off_used + SIZEOF_VIRTQUEUE_USED + len * SIZEOF_VIRTQUEUE_USED_ELEM
  { off_desc := off_desc, off_avail := off_avail, off_used_event := off_used_event,
    off_used := off_used, off_avail_event := off_avail_event,
    memsize := off_avail_event + 2 }

/-- src/kernel/virtio.c lines 67-108: `virtq_create`. If the computed size
exceeds `PAGE_SIZE` no virtqueue is created (returns NULL); otherwise the
page is allocated and the sub-region pointers are set at the computed
offsets (the page allocation and mapping are external collaborators). -/
def virtq_create (len : Nat) : Option VirtqLayout :=
  let L := virtq_layout len
  if L.memsize > PAGE_SIZE then none else some L

/-- One descriptor of the descriptor table: guest-physical address,
length, flags, next. -/
structure VirtqDesc where
  addr : Nat
  len : Nat
  flags : Nat
  next : Nat
deriving DecidableEq, Repr, Inhabited

/-- The driver-visible contents of a virtqueue: the descriptor table, the
avail ring with its 16-bit index, and the used index. -/
structure VirtqState where
  descs : List VirtqDesc
  availRing : List Nat
  availIdx : Nat
  usedIdx : Nat
deriving DecidableEq, Repr, Inhabited

/-- The `struct virtio_blk` device handle reduced to what the read path
touches: the virtqueue and the trace of values written to the
`QueueNotify` register. -/
structure VirtioBlkDev where
  virtq : VirtqState
  notifyWrites : List Nat
deriving DecidableEq, Repr, Inhabited

/-- The block request header `virtio_blk_read` fills in (type and
sector). -/
structure BlkReqHdr where
  reqType : Nat
  sector : Nat
deriving DecidableEq, Repr, Inhabited

/-- src/kernel/virtio.c lines 197-226: `virtio_blk_read`. Fills the request
header (`type = VIRTIO_BLK_T_IN`, the sector), populates descriptor slots
0, 1, 2 as a chain, publishes head index 0 in the avail ring at the
current avail index, increments the 16-bit avail index by one, and writes
0 to `QueueNotify`. `hdr_phys` and `data_phys` are the physical addresses
`kmem_lookup_phys` returns for the slab header and the data buffer. -/
def virtio_blk_read (blk : VirtioBlkDev) (sector : Nat) (hdr_phys data_phys : Nat) :
    VirtioBlkDev × BlkReqHdr :=
  let hdr : BlkReqHdr := { reqType := VIRTIO_BLK_T_IN, sector := sector }
  let v := blk.virtq
  let d0 : VirtqDesc := { addr := hdr_phys, len := VIRTIO_BLK_REQ_HEADER_SIZE,
                          flags := VIRTQ_DESC_F_NEXT, next := 1 }
  let d1 : VirtqDesc := { addr := data_phys + 16, len := VIRTIO_BLK_SECTOR_SIZE,
                          flags := VIRTQ_DESC_F_WRITE ||| VIRTQ_DESC_F_NEXT, next := 2 }
  let d2 : VirtqDesc := { addr := hdr_phys + VIRTIO_BLK_REQ_HEADER_SIZE,
                          len := VIRTIO_BLK_REQ_FOOTER_SIZE,
                          flags := VIRTQ_DESC_F_WRITE, next := 0 }
  let descs := ((v.descs.set 0 d0).set 1 d1).set 2 d2
  let ring := v.availRing.set v.availIdx 0
  let idx := (v.availIdx + 1) % 65536
  ({ virtq := { v with descs := descs, availRing := ring, availIdx := idx },
     notifyWrites := blk.notifyWrites ++ [0] }, hdr)

/-- The device side of one probed virtio-MMIO slot: the values its
read-only registers present, its advertised feature bits, and whether it
retains the `FEATURES_OK` status bit when the driver sets it. -/
structure VirtioDevice where
  magic : Nat
  version : Nat
  deviceID : Nat
  deviceFeatures : Nat
  retainsFeaturesOK : Bool
deriving DecidableEq, Repr, Inhabited

/-- Outcome of `virtio_dev_init` on one slot. -/
inductive VirtioInitResult where
  | badMagic
  | badVersion
  | emptySlot
  | featuresRejected
  | unsupported (id : Nat)
  | blkReady
deriving DecidableEq, Repr

/-- One capability row of the tables at src/kernel/virtio.c lines 20-51:
the feature bit and whether the driver supports it (every row of both
tables has `support = false`). -/
structure VirtioCap where
  bit : Nat
  support : Bool
deriving DecidableEq, Repr

/-- src/kernel/virtio.c lines 33-51: `blk_caps` (bits only; the name and
help strings are diagnostics). -/
def blk_caps : List VirtioCap :=
  [{ bit := 2, support := false }, { bit := 4, support := false },
   { bit := 16, support := false }, { bit := 32, support := false },
   { bit := 64, support := false }, { bit := 512, support := false },
   { bit := 1024, support := false }, { bit := 2048, support := false }]

/-- src/kernel/virtio.c lines 20-31: `indp_caps`. -/
def indp_caps : List VirtioCap :=
  [{ bit := 2 ^ 28, support := false }, { bit := 2 ^ 29, support := false }]

/-- src/kernel/virtio.c lines 125-139: `virtio_check_capabilities`. For
each table row, a bit both offered and supported is ORed into the request;
in all cases the bit is cleared from the device view (32-bit complement
mask). Returns the updated (device view, request) pair. -/
def virtio_check_capabilities (device request : Nat) (caps : List VirtioCap) : Nat × Nat :=
  caps.foldl
    (fun dr c =>
      let r := if dr.1 &&& c.bit ≠ 0 ∧ c.support then dr.2 ||| c.bit else dr.2
      (dr.1 &&& (0xFFFFFFFF ^^^ c.bit), r))
    (device, request)

/-- src/kernel/virtio.c lines 144-195: `virtio_blk_init`, up to its
decision points. `status0` is the status value accumulated by the
handshake (the device retains status writes; only the `FEATURES_OK` bit of
the re-read at line 167 is device-controlled, via `retainsFeaturesOK`).
Returns the outcome and the list of values written to `Status`. The queue
attachment, interrupt enablement and slab initialization involve no
further decisions. -/
def virtio_blk_init (dev : VirtioDevice) (status0 : Nat) : VirtioInitResult × List Nat :=
  let dr1 := virtio_check_capabilities dev.deviceFeatures 0 blk_caps
  let _dr2 := virtio_check_capabilities dr1.1 dr1.2 indp_caps
  let s1 := status0 ||| VIRTIO_STATUS_FEATURES_OK
  let readBack := if dev.retainsFeaturesOK then s1
                  else s1 &&& (0xFFFFFFFF ^^^ VIRTIO_STATUS_FEATURES_OK)
  if readBack &&& VIRTIO_STATUS_FEATURES_OK = 0 then
    (VirtioInitResult.featuresRejected, [s1])
  else
    let s2 := readBack ||| VIRTIO_STATUS_DRIVER_OK
    (VirtioInitResult.blkReady, [s1, s2])

/-- src/kernel/virtio.c lines 228-265: `virtio_dev_init`. Checks magic,
version and a zero device id before any register write; then performs the
handshake (`Status = 0`, OR `ACKNOWLEDGE`, OR `DRIVER`, each barriered)
and dispatches on the device id. Returns the outcome and the full list of
values written to the `Status` register. -/
def virtio_dev_init (dev : VirtioDevice) : VirtioInitResult × List Nat :=
  if dev.magic ≠ VIRTIO_MAGIC then (VirtioInitResult.badMagic, [])
  else if dev.version ≠ VIRTIO_VERSION then (VirtioInitResult.badVersion, [])
  else if dev.deviceID = 0 then (VirtioInitResult.emptySlot, [])
  else
    let w1 := 0 ||| VIRTIO_STATUS_ACKNOWLEDGE
    let w2 := w1 ||| VIRTIO_STATUS_DRIVER
    if dev.deviceID = VIRTIO_DEV_BLK then
      let r := virtio_blk_init dev w2
      (r.1, [0, w1, w2] ++ r.2)
    else (VirtioInitResult.unsupported dev.deviceID, [0, w1, w2])

/-- The one's-complement sum `udp_send` accumulates while the checksum
field is still zero: pseudo-header words, header words and padded payload
words. -/
def udpPseudoSum (sip dip sp dp lf : Nat) (pl : List Nat) : Nat :=
  (words32 sip).sum + (words32 dip).sum + ntohs IPPROTO_UDP + lf + sp + dp + lf
    + (toWords pl).sum

/-- Two fresh sockets over an empty endpoint table. -/
def stC1a : UdpState := initState 2 0

/-- The state after socket 0 bound port 5000 (`sin_port` passed in network
byte order, as user space stores it). -/
def stC1b : UdpState :=
  (udp_bind stC1a 0 SIZEOF_SOCKADDR_IN (Except.ok { sin_port := htons 5000, sin_addr := 0 })).2

/-- A socket bound to port 5000 (used by the `udp_recv` counterexample). -/
def sockC2 : Socket :=
  { src := { sin_port := htons 5000, sin_addr := 0 }, dst := default,
    sk_bound := true, sk_connected := false, recvq := [], recvwaitWoken := false }

/-- The socket-bound endpoint entry of `sockC2` for port 5000 (bucket
5000 mod 128 = 8). -/
def entC2 : UdpEntry := { sockId := some 0, port := 5000, procReady := false, rcv := none }

/-- Endpoint table holding only `entC2`, socket table holding `sockC2`. -/
def stC2 : UdpState :=
  { buckets := (List.replicate UDP_HLIST_SIZE []).set 8 [entC2], sockets := [sockC2],
    ephCursor := 20000, nifIp := 0 }

/-- A packet whose destination port 5128 shares bucket 8 with port 5000
but matches no bound port. -/
def pktC2 : Packet := { udp_src_port := htons 9, udp_dst_port := htons 5128, payload := [1, 2] }

/-- A one-shot waiter for port 4242 (bucket 4242 mod 128 = 18). -/
def entC2w : UdpEntry := { sockId := none, port := 4242, procReady := false, rcv := none }

/-- Endpoint table holding only the waiter `entC2w`. -/
def stC2w : UdpState :=
  { buckets := (List.replicate UDP_HLIST_SIZE []).set 18 [entC2w], sockets := [],
    ephCursor := 20000, nifIp := 0 }

/-- A packet to port 4242. -/
def pktC2w : Packet := { udp_src_port := 1, udp_dst_port := htons 4242, payload := [7] }

/-- A state in which port 20000 (host byte order) already has a
socket-bound entry while the ephemeral cursor is at its initial value
20000. -/
def stC3a : UdpState := udp_do_bind (initState 2 0) 0 { sin_port := htons 20000, sin_addr := 0 }

/-- A bound and connected socket ready to send. -/
def stC4 : UdpState :=
  { buckets := List.replicate UDP_HLIST_SIZE [],
    sockets := [{ src := { sin_port := htons 6000, sin_addr := 0 },
                  dst := { sin_port := htons 7, sin_addr := 2 },
                  sk_bound := true, sk_connected := true, recvq := [], recvwaitWoken := false }],
    ephCursor := 20000, nifIp := 5 }

/-- A three-byte packet queued on a bound socket. -/
def pktC5 : Packet := { udp_src_port := 3, udp_dst_port := htons 5000, payload := [1, 2, 3] }

/-- A bound socket whose receive queue holds `pktC5`. -/
def stC5 : UdpState :=
  { buckets := List.replicate UDP_HLIST_SIZE [],
    sockets := [{ src := { sin_port := htons 5000, sin_addr := 0 }, dst := default,
                  sk_bound := true, sk_connected := false, recvq := [pktC5],
                  recvwaitWoken := false }],
    ephCursor := 20000, nifIp := 0 }

/-- A freshly created virtio-blk device handle with a length-128 queue. -/
def blkC6 : VirtioBlkDev :=
  { virtq := { descs := List.replicate 128 default, availRing := List.replicate 128 0,
               availIdx := 0, usedIdx := 0 },
    notifyWrites := [] }

/-- A connected but unbound socket over an empty endpoint table. -/
def stC10 : UdpState :=
  { buckets := List.replicate UDP_HLIST_SIZE [],
    sockets := [{ src := default, dst := { sin_port := htons 7, sin_addr := 9 },
                  sk_bound := false, sk_connected := true, recvq := [], recvwaitWoken := false }],
    ephCursor := 20000, nifIp := 5 }

theorem csum_foldAux_le : ∀ fuel a, a ≤ fuel → csum_foldAux fuel a ≤ 65535
  | 0, a => by intro h; simp only [csum_foldAux]; omega
  | Nat.succ n, a => by
    intro h
    simp only [csum_foldAux]
    split
    · omega
    · exact csum_foldAux_le n _ (by omega)

theorem csum_foldAux_le_self : ∀ fuel a, csum_foldAux fuel a ≤ a
  | 0, _ => le_rfl
  | Nat.succ n, a => by
    simp only [csum_foldAux]
    split
    · exact le_rfl
    · have := csum_foldAux_le_self n (a % 65536 + a / 65536)
      omega

theorem csum_foldAux_mod : ∀ fuel a, a ≤ fuel → csum_foldAux fuel a % 65535 = a % 65535
  | 0, a => by intro h; rfl
  | Nat.succ n, a => by
    intro h
    simp only [csum_foldAux]
    split
    · rfl
    · rw [csum_foldAux_mod n _ (by omega)]
      omega

theorem csum_foldAux_full : ∀ fuel a, a ≤ fuel → 0 < a → a % 65535 = 0 →
    csum_foldAux fuel a = 65535
  | 0, a => by intro h hp hm; omega
  | Nat.succ n, a => by
    intro h hp hm
    simp only [csum_foldAux]
    split
    · omega
    · exact csum_foldAux_full n _ (by omega) (by omega) (by omega)

/-- The defining algebraic property of the one's-complement checksum: a
checksum emitted as the finalization of a sum verifies to zero when the
same sum is recomputed with the checksum folded in. -/
theorem csum_verify_zero (S : Nat) : csum_finalize (S + csum_finalize S) = 0 := by
  unfold csum_finalize csum_fold
  have hle : csum_foldAux S S ≤ 65535 := csum_foldAux_le S S le_rfl
  have hself : csum_foldAux S S ≤ S := csum_foldAux_le_self S S
  have hmod : csum_foldAux S S % 65535 = S % 65535 := csum_foldAux_mod S S le_rfl
  have hfull := csum_foldAux_full (S + (65535 - csum_foldAux S S))
    (S + (65535 - csum_foldAux S S)) le_rfl (by omega) (by omega)
  omega

theorem udp_send_csum_field (sip dip sp dp : Nat) (pl : List Nat) :
    (udp_send sip dip sp dp pl).csum_field
      = csum_finalize (udpPseudoSum sip dip sp dp (htons (pl.length + SIZEOF_UDPHDR)) pl) := by
  simp only [udp_send, udpPseudoSum, csum_init, csum_add, csum_add_value,
    List.sum_append, List.sum_cons, List.sum_nil]
  congr 1
  omega

theorem checksum_verify_eq (sip dip : Nat) (d : UdpDatagram) :
    checksum_verify sip dip d
      = csum_finalize ((words32 sip).sum + (words32 dip).sum + ntohs IPPROTO_UDP
          + d.len_field + d.src_port + d.dst_port + d.len_field + d.csum_field
          + (toWords d.payload).sum) := by
  simp only [checksum_verify, csum_init, csum_add, List.sum_append, List.sum_cons,
    List.sum_nil]
  congr 1
  omega

/-- The datagram `udp_send` emits carries a checksum that verifies to zero
over pseudo-header, header and zero-padded payload. -/
theorem udp_send_verify (sip dip sp dp : Nat) (pl : List Nat) :
    checksum_verify sip dip (udp_send sip dip sp dp pl) = 0 := by
  rw [checksum_verify_eq]
  have hsp : (udp_send sip dip sp dp pl).src_port = sp := rfl
  have hdp : (udp_send sip dip sp dp pl).dst_port = dp := rfl
  have hlf : (udp_send sip dip sp dp pl).len_field = htons (pl.length + SIZEOF_UDPHDR) := rfl
  have hpl : (udp_send sip dip sp dp pl).payload = pl := rfl
  rw [hsp, hdp, hlf, hpl, udp_send_csum_field]
  convert csum_verify_zero
    (udpPseudoSum sip dip sp dp (htons (pl.length + SIZEOF_UDPHDR)) pl) using 2
  simp only [udpPseudoSum]
  omega

/-- `udp_sys_send` either emits nothing or exactly one datagram built by
`udp_send` from the copied payload bytes. -/
theorem udp_sys_send_emitted_shape (st : UdpState) (sid len : Nat) (bytes : List Nat) :
    (udp_sys_send st sid len (Except.ok bytes)).emitted = none ∨
    ∃ sip dip sp dp, (udp_sys_send st sid len (Except.ok bytes)).emitted
        = some (sip, dip, udp_send sip dip sp dp bytes) := by
  unfold udp_sys_send
  dsimp only
  split
  · left; rfl
  · split
    · left; rfl
    · split
      all_goals split
      all_goals try (left; rfl)
      all_goals try (right; exact ⟨_, _, _, _, rfl⟩)

/-- C4: for every successful `udp_sys_send` with payload length `len`, the
emitted UDP header's length field is `len + 8` in network byte order, and
its checksum — over the pseudo-header {src ip, dst ip, protocol 17, udp
length} plus UDP header and payload, the payload rounded up to whole
16-bit words — verifies to zero. -/
theorem udp_sys_send_length_and_checksum (st : UdpState) (sid len : Nat)
    (bytes : List Nat) (sip dip : Nat) (d : UdpDatagram)
    (hlen : bytes.length = len)
    (h : (udp_sys_send st sid len (Except.ok bytes)).emitted = some (sip, dip, d)) :
    d.len_field = htons (len + SIZEOF_UDPHDR) ∧ checksum_verify sip dip d = 0 := by
  rcases udp_sys_send_emitted_shape st sid len bytes with hnone | ⟨a, b, c, e, hsome⟩
  · rw [hnone] at h
    exact absurd h (by simp)
  · rw [hsome] at h
    simp only [Option.some.injEq, Prod.mk.injEq] at h
    obtain ⟨rfl, rfl, rfl⟩ := h
    subst hlen
    exact ⟨rfl, udp_send_verify _ _ _ _ _⟩

set_option maxRecDepth 40000 in
/-- Witness for C4: a concrete two-byte send from the bound connected
socket of `stC4` emits length field `htons 10` and a checksum verifying
to zero. -/
theorem udp_sys_send_length_and_checksum_witness :
    (udp_send 5 2 (htons 6000) (htons 7) [104, 105]).len_field = htons (2 + SIZEOF_UDPHDR)
    ∧ checksum_verify 5 2 (udp_send 5 2 (htons 6000) (htons 7) [104, 105]) = 0 :=
  udp_sys_send_length_and_checksum stC4 0 2 [104, 105] 5 2
    (udp_send 5 2 (htons 6000) (htons 7) [104, 105]) (by decide) (by decide)

/-- C9: `udp_connect` with a valid v4 address length stores the address as
the socket's destination and sets the connected flag; connecting twice
with the same address equals connecting once, and connecting with a
second address leaves the socket as if only the second connect had
occurred. -/
theorem udp_connect_overwrite_idempotent (s : Socket) (a b : SockAddrIn) :
    (udp_connect s SIZEOF_SOCKADDR_IN (Except.ok a)).1 = 0
    ∧ (udp_connect s SIZEOF_SOCKADDR_IN (Except.ok a)).2.dst = a
    ∧ (udp_connect s SIZEOF_SOCKADDR_IN (Except.ok a)).2.sk_connected = true
    ∧ udp_connect (udp_connect s SIZEOF_SOCKADDR_IN (Except.ok a)).2 SIZEOF_SOCKADDR_IN
        (Except.ok a) = udp_connect s SIZEOF_SOCKADDR_IN (Except.ok a)
    ∧ udp_connect (udp_connect s SIZEOF_SOCKADDR_IN (Except.ok a)).2 SIZEOF_SOCKADDR_IN
        (Except.ok b) = udp_connect s SIZEOF_SOCKADDR_IN (Except.ok b) := by
  refine ⟨rfl, rfl, rfl, rfl, rfl⟩

set_option maxRecDepth 40000 in
/-- C1 (code bug): with an entry for port 5000 already in the table from a
first successful bind, a second `udp_bind` to port 5000 succeeds (returns
0) instead of failing with `EADDRINUSE`, and inserts a second entry for
the port: the occupancy probe passes `sin_port` in network byte order
(34835) to `lookup_entry`, which stores host-order ports. -/
theorem udp_bind_second_bind_5000_succeeds :
    (udp_bind stC1a 0 SIZEOF_SOCKADDR_IN (Except.ok { sin_port := htons 5000, sin_addr := 0 })).1 = 0
    ∧ entriesWithPort stC1b 5000 = 1
    ∧ (udp_bind stC1b 1 SIZEOF_SOCKADDR_IN (Except.ok { sin_port := htons 5000, sin_addr := 0 })).1
        = 0
    ∧ entriesWithPort
        (udp_bind stC1b 1 SIZEOF_SOCKADDR_IN (Except.ok { sin_port := htons 5000, sin_addr := 0 })).2
        5000 = 2 := by
  decide

set_option maxRecDepth 40000 in
/-- C3 (code bug): with an entry for port 20000 already present and the
cursor at 20000, the ephemeral allocator binds port 20000 anyway — its
probe `lookup_entry(htons(20000))` looks up 8270 instead — creating a
duplicate entry for a port that was already present at the time of
binding. -/
theorem udp_ephemeral_binds_occupied_port :
    entriesWithPort stC3a 20000 = 1
    ∧ (udp_bind_to_ephemeral stC3a 1).1 = true
    ∧ entriesWithPort (udp_bind_to_ephemeral stC3a 1).2 20000 = 2 := by
  decide

/-- C5: on a bound socket whose receive queue head has payload longer than
the user buffer, `udp_sys_recv` returns `EMSGSIZE` and leaves the state —
including the head packet of the queue — unchanged; no packet is freed. -/
theorem udp_sys_recv_emsgsize_leaves_packet (st : UdpState) (sid len : Nat)
    (copyErr : Option Int) (pkt : Packet) (rest : List Packet)
    (hb : (st.sockets.getD sid default).sk_bound = true)
    (hq : (st.sockets.getD sid default).recvq = pkt :: rest)
    (hlen : pkt.payload.length > len) :
    udp_sys_recv st sid len copyErr = (SysRecvResult.ret (-EMSGSIZE), st, []) := by
  unfold udp_sys_recv socket_recvq_get
  dsimp only
  rw [hb, hq]
  simp [hlen]

set_option maxRecDepth 40000 in
/-- Witness for C5: a three-byte packet against a two-byte buffer. -/
theorem udp_sys_recv_emsgsize_leaves_packet_witness :
    udp_sys_recv stC5 0 2 none = (SysRecvResult.ret (-EMSGSIZE), stC5, []) :=
  udp_sys_recv_emsgsize_leaves_packet stC5 0 2 none pktC5 [] (by decide) (by decide) (by decide)

theorem udp_do_bind_sk_bound (st : UdpState) (sid : Nat) (addr : SockAddrIn)
    (hsid : sid < st.sockets.length) :
    ((udp_do_bind st sid addr).sockets.getD sid default).sk_bound = true := by
  unfold udp_do_bind
  dsimp only
  rw [List.getD_eq_getElem?_getD, List.getElem?_set_eq_of_lt _ hsid]
  rfl

theorem udp_bind_to_ephemeral_loop_sk_bound (sid : Nat) : ∀ (fuel : Nat) (st : UdpState),
    sid < st.sockets.length →
    (udp_bind_to_ephemeral_loop sid st fuel).1 = true →
    ((udp_bind_to_ephemeral_loop sid st fuel).2.sockets.getD sid default).sk_bound = true
  | 0, st => by
    intro h hc
    simp [udp_bind_to_ephemeral_loop] at hc
  | Nat.succ fuel, st => by
    intro h hc
    unfold udp_bind_to_ephemeral_loop at hc ⊢
    dsimp only at hc ⊢
    by_cases hl : (lookup_entry { st with ephCursor := if st.ephCursor = 65535 then 20000 else st.ephCursor + 1 } (htons st.ephCursor)).isNone
    · rw [if_pos hl]
      exact udp_do_bind_sk_bound _ _ _ h
    · rw [if_neg hl] at hc ⊢
      exact udp_bind_to_ephemeral_loop_sk_bound sid fuel _ h hc

/-- C10: when the payload copy from user space faults during
`udp_sys_send` on a connected socket, the freshly allocated packet is
freed (no leak) and the fault code is returned — but an ephemeral bind
performed earlier in the same call persists: the socket stays bound. -/
theorem udp_sys_send_efault_frees_and_keeps_bind (st : UdpState) (sid : Nat) (e : Int) (len : Nat)
    (hsize : udp_reserve + len ≤ MAX_ETH_PKT_SIZE)
    (hconn : (st.sockets.getD sid default).sk_connected = true)
    (hunbound : (st.sockets.getD sid default).sk_bound = false)
    (heph : (udp_bind_to_ephemeral st sid).1 = true)
    (hsid : sid < st.sockets.length) :
    udp_sys_send st sid len (Except.error e) =
      { retval := e, state := (udp_bind_to_ephemeral st sid).2, emitted := none,
        pktAllocated := true, pktFreed := true }
    ∧ ((udp_bind_to_ephemeral st sid).2.sockets.getD sid default).sk_bound = true := by
  constructor
  · unfold udp_sys_send
    dsimp only
    rw [if_neg (by omega), if_neg (by rw [hconn]; simp)]
    rw [if_pos hunbound]
    rw [if_neg (by rw [heph]; simp)]
  · exact udp_bind_to_ephemeral_loop_sk_bound sid 100 st hsid heph

set_option maxRecDepth 40000 in
/-- Witness for C10: a faulting two-byte send on the connected, unbound
socket of `stC10` returns the fault code, frees the packet, and leaves
the socket ephemerally bound. -/
theorem udp_sys_send_efault_frees_and_keeps_bind_witness :
    udp_sys_send stC10 0 2 (Except.error (-EFAULT)) =
      { retval := -EFAULT, state := (udp_bind_to_ephemeral stC10 0).2, emitted := none,
        pktAllocated := true, pktFreed := true }
    ∧ ((udp_bind_to_ephemeral stC10 0).2.sockets.getD 0 default).sk_bound = true :=
  udp_sys_send_efault_frees_and_keeps_bind stC10 0 (-EFAULT) 2 (by decide) (by decide)
    (by decide) (by decide) (by decide)

theorem list_set_getD_self {α : Type} (l : List α) (i : Nat) (d : α) (h : i < l.length) :
    l.set i (l.getD i d) = l := by
  apply List.ext_getElem?
  intro j
  by_cases hj : i = j
  · subst hj
    rw [List.getElem?_set_eq_of_lt _ h, List.getD_eq_getElem?_getD,
      List.getElem?_eq_getElem h]
    rfl
  · rw [List.getElem?_set_ne hj]

theorem udp_recv_walk_characterization (dstp : Nat) (pkt : Packet) :
    ∀ es : List UdpEntry,
      udp_recv_walk dstp pkt es =
        match recv_first_hit dstp es with
        | none => (RecvOutcome.dropped, es)
        | some (i, e) =>
          match e.sockId with
          | some sid => (RecvOutcome.toSocket sid, es)
          | none => (RecvOutcome.toWaiter i,
              es.set i { e with rcv := some pkt, procReady := true })
  | [] => rfl
  | e :: rest => by
    cases hs : e.sockId with
    | some sid => simp [udp_recv_walk, recv_first_hit, hs]
    | none =>
      by_cases hp : e.port = dstp
      · simp [udp_recv_walk, recv_first_hit, hs, hp, List.set]
      · have ih := udp_recv_walk_characterization dstp pkt rest
        simp only [udp_recv_walk, recv_first_hit, hs, hp, ih, Option.isSome_none,
          Bool.false_eq_true, false_or, if_neg]
        cases hf : recv_first_hit dstp rest with
        | none => simp
        | some p =>
          obtain ⟨i, e2⟩ := p
          cases h2 : e2.sockId with
          | some sid => simp [h2]
          | none => simp [h2, List.set]

/-- C2 (amended): for every packet handed to `udp_recv`, exactly one of
three outcomes occurs, decided by the first entry of the destination
port's hash bucket at which the walk stops: a socket-bound entry — won
unconditionally, regardless of its stored port — gets the packet appended
to its socket's receive queue and the socket's recv wait list awakened; a
one-shot waiter whose port equals the destination port gets the packet in
its slot and its process marked ready; with no such entry the packet is
freed after the diagnostic, leaving the state unchanged. -/
theorem udp_recv_first_hit_trichotomy (st : UdpState) (pkt : Packet)
    (dstp hash : Nat) (bucket : List UdpEntry)
    (hd : dstp = ntohs pkt.udp_dst_port)
    (hh : hash = udp_hash dstp)
    (hbk : bucket = st.buckets.getD hash [])
    (hlen : st.buckets.length = UDP_HLIST_SIZE) :
    (recv_first_hit dstp bucket = none → udp_recv st pkt = (RecvOutcome.dropped, st))
    ∧ (∀ i e sid, recv_first_hit dstp bucket = some (i, e) → e.sockId = some sid →
        udp_recv st pkt = (RecvOutcome.toSocket sid,
          { st with sockets := st.sockets.set sid (recvqAppend (st.sockets.getD sid default) pkt) }))
    ∧ (∀ i e, recv_first_hit dstp bucket = some (i, e) → e.sockId = none →
        udp_recv st pkt = (RecvOutcome.toWaiter i,
          { st with buckets := (st.buckets.set hash
              (bucket.set i { e with rcv := some pkt, procReady := true })) })) := by
  subst hd
  subst hh
  subst hbk
  have hset : st.buckets.set (udp_hash (ntohs pkt.udp_dst_port))
      (st.buckets.getD (udp_hash (ntohs pkt.udp_dst_port)) []) = st.buckets :=
    list_set_getD_self _ _ _ (by rw [hlen]; exact Nat.mod_lt _ (by decide))
  refine ⟨?_, ?_, ?_⟩
  · intro h
    unfold udp_recv
    dsimp only
    rw [udp_recv_walk_characterization, h]
    dsimp only
    rw [hset]
  · intro i e sid hf hs
    unfold udp_recv
    dsimp only
    rw [udp_recv_walk_characterization, hf]
    dsimp only
    rw [hs]
    dsimp only
    rw [hset]
  · intro i e hf hs
    unfold udp_recv
    dsimp only
    rw [udp_recv_walk_characterization, hf]
    dsimp only
    rw [hs]

set_option maxRecDepth 40000 in
/-- Counterexample to C2 as stated: a packet for port 5128 lands in bucket
8, where the only entry is the socket bound to port 5000; no entry matches
the packet's destination port, yet the packet is delivered to that
socket's receive queue (first socket-bound entry wins without a port
check) instead of being freed. -/
theorem udp_recv_delivers_despite_port_mismatch :
    ntohs pktC2.udp_dst_port = 5128
    ∧ (∀ e ∈ stC2.buckets.getD (udp_hash (ntohs pktC2.udp_dst_port)) [], e.port ≠ 5128)
    ∧ (udp_recv stC2 pktC2).1 = RecvOutcome.toSocket 0
    ∧ ((udp_recv stC2 pktC2).2.sockets.getD 0 default).recvq = [pktC2] := by
  decide

set_option maxRecDepth 40000 in
/-- Witness for C2 (amended), at the one-shot waiter case: a packet to
port 4242 is stored in the waiter's slot and its process marked ready. -/
theorem udp_recv_first_hit_trichotomy_witness :
    udp_recv stC2w pktC2w = (RecvOutcome.toWaiter 0,
      { stC2w with buckets := (stC2w.buckets.set 18
          ([entC2w].set 0 { entC2w with rcv := some pktC2w, procReady := true })) }) :=
  (udp_recv_first_hit_trichotomy stC2w pktC2w 4242 18 [entC2w] (by decide) (by decide)
      (by decide) (by decide)).2.2 0 entC2w (by decide) (by decide)

/-- C6: every submitted block read writes descriptor slots 0, 1, 2 as the
chain 0→1→2 with flags NEXT, WRITE|NEXT, WRITE; slot 0 points at the
request header with the header length, slot 1 at the data buffer physical
address + 16 with length 512, slot 2 at header physical + header size with
the footer length; the 16-bit avail index advances by exactly one and
`QueueNotify` is written with the value 0. -/
theorem virtio_blk_read_descriptor_chain (blk : VirtioBlkDev) (sector hp dp : Nat)
    (h3 : 3 ≤ blk.virtq.descs.length) :
    (virtio_blk_read blk sector hp dp).1.virtq.descs.getD 0 default
        = { addr := hp, len := VIRTIO_BLK_REQ_HEADER_SIZE, flags := VIRTQ_DESC_F_NEXT, next := 1 }
    ∧ (virtio_blk_read blk sector hp dp).1.virtq.descs.getD 1 default
        = { addr := dp + 16, len := VIRTIO_BLK_SECTOR_SIZE,
            flags := VIRTQ_DESC_F_WRITE ||| VIRTQ_DESC_F_NEXT, next := 2 }
    ∧ (virtio_blk_read blk sector hp dp).1.virtq.descs.getD 2 default
        = { addr := hp + VIRTIO_BLK_REQ_HEADER_SIZE, len := VIRTIO_BLK_REQ_FOOTER_SIZE,
            flags := VIRTQ_DESC_F_WRITE, next := 0 }
    ∧ (virtio_blk_read blk sector hp dp).1.virtq.availIdx = (blk.virtq.availIdx + 1) % 65536
    ∧ (virtio_blk_read blk sector hp dp).1.notifyWrites = blk.notifyWrites ++ [0]
    ∧ (virtio_blk_read blk sector hp dp).2 = { reqType := VIRTIO_BLK_T_IN, sector := sector } := by
  unfold virtio_blk_read
  dsimp only
  refine ⟨?_, ?_, ?_, rfl, rfl, rfl⟩
  · rw [List.getD_eq_getElem?_getD, List.getElem?_set_ne (by omega),
      List.getElem?_set_ne (by omega), List.getElem?_set_eq_of_lt _ (by omega)]
    rfl
  · rw [List.getD_eq_getElem?_getD, List.getElem?_set_ne (by omega),
      List.getElem?_set_eq_of_lt _ (by simp; omega)]
    rfl
  · rw [List.getD_eq_getElem?_getD, List.getElem?_set_eq_of_lt _ (by simp; omega)]
    rfl

set_option maxRecDepth 40000 in
/-- Witness for C6: a read of sector 42 on the fresh device `blkC6` with
header at physical 4096 and data buffer at physical 8192. -/
theorem virtio_blk_read_descriptor_chain_witness :
    (virtio_blk_read blkC6 42 4096 8192).1.virtq.descs.getD 0 default
        = { addr := 4096, len := VIRTIO_BLK_REQ_HEADER_SIZE, flags := VIRTQ_DESC_F_NEXT, next := 1 }
    ∧ (virtio_blk_read blkC6 42 4096 8192).1.virtq.descs.getD 1 default
        = { addr := 8192 + 16, len := VIRTIO_BLK_SECTOR_SIZE,
            flags := VIRTQ_DESC_F_WRITE ||| VIRTQ_DESC_F_NEXT, next := 2 }
    ∧ (virtio_blk_read blkC6 42 4096 8192).1.virtq.descs.getD 2 default
        = { addr := 4096 + VIRTIO_BLK_REQ_HEADER_SIZE, len := VIRTIO_BLK_REQ_FOOTER_SIZE,
            flags := VIRTQ_DESC_F_WRITE, next := 0 }
    ∧ (virtio_blk_read blkC6 42 4096 8192).1.virtq.availIdx = (blkC6.virtq.availIdx + 1) % 65536
    ∧ (virtio_blk_read blkC6 42 4096 8192).1.notifyWrites = blkC6.notifyWrites ++ [0]
    ∧ (virtio_blk_read blkC6 42 4096 8192).2 = { reqType := VIRTIO_BLK_T_IN, sector := 42 } :=
  virtio_blk_read_descriptor_chain blkC6 42 4096 8192 (by decide)

/-- C7: `virtq_create 128` computes the offsets 16, 2064, 2324, 2328, 3356
with total size 3358 ≤ PAGE_SIZE, so creation succeeds; for any length
whose computed size exceeds PAGE_SIZE, creation fails and returns no
virtqueue. -/
theorem virtq_create_layout_128_and_overflow :
    virtq_create 128 = some { off_desc := 16, off_avail := 2064, off_used_event := 2324,
                              off_used := 2328, off_avail_event := 3356, memsize := 3358 }
    ∧ (∀ len, (virtq_layout len).memsize > PAGE_SIZE → virtq_create len = none) := by
  constructor
  · decide
  · intro len h
    unfold virtq_create
    simp [h]

/-- Witness for C7: a length-1000 virtqueue (26030 bytes) does not fit a
page and creation fails. -/
theorem virtq_create_layout_128_and_overflow_witness :
    virtq_create 1000 = none :=
  virtq_create_layout_128_and_overflow.2 1000 (by decide)

/-- C8: device initialization fails before any status write when the magic
value differs from 0x74726976 or the version differs from 2, is skipped
silently when the device id is zero, and for a block device fails when the
re-read of `Status` does not retain `FEATURES_OK` after the driver set it. -/
theorem virtio_dev_init_failure_modes (dev : VirtioDevice) :
    (dev.magic ≠ VIRTIO_MAGIC → virtio_dev_init dev = (VirtioInitResult.badMagic, []))
    ∧ (dev.magic = VIRTIO_MAGIC → dev.version ≠ VIRTIO_VERSION →
        virtio_dev_init dev = (VirtioInitResult.badVersion, []))
    ∧ (dev.magic = VIRTIO_MAGIC → dev.version = VIRTIO_VERSION → dev.deviceID = 0 →
        virtio_dev_init dev = (VirtioInitResult.emptySlot, []))
    ∧ (dev.magic = VIRTIO_MAGIC → dev.version = VIRTIO_VERSION → dev.deviceID = VIRTIO_DEV_BLK →
        dev.retainsFeaturesOK = false →
        (virtio_dev_init dev).1 = VirtioInitResult.featuresRejected) := by
  refine ⟨?_, ?_, ?_, ?_⟩
  · intro h
    unfold virtio_dev_init
    rw [if_pos h]
  · intro h1 h2
    unfold virtio_dev_init
    rw [if_neg (by simp [h1]), if_pos h2]
  · intro h1 h2 h3
    unfold virtio_dev_init
    rw [if_neg (by simp [h1]), if_neg (by simp [h2]), if_pos h3]
  · intro h1 h2 h3 h4
    unfold virtio_dev_init
    dsimp only
    rw [if_neg (by simp [h1]), if_neg (by simp [h2]),
      if_neg (by rw [h3]; decide), if_pos h3]
    unfold virtio_blk_init
    dsimp only
    rw [h4]
    rw [if_pos (by decide)]

/-- Witness for C8: concrete devices exercising all four failure modes. -/
theorem virtio_dev_init_failure_modes_witness :
    virtio_dev_init { magic := 0, version := 2, deviceID := 2, deviceFeatures := 0,
                      retainsFeaturesOK := true } = (VirtioInitResult.badMagic, [])
    ∧ virtio_dev_init { magic := VIRTIO_MAGIC, version := 1, deviceID := 2, deviceFeatures := 0,
                        retainsFeaturesOK := true } = (VirtioInitResult.badVersion, [])
    ∧ virtio_dev_init { magic := VIRTIO_MAGIC, version := 2, deviceID := 0, deviceFeatures := 0,
                        retainsFeaturesOK := true } = (VirtioInitResult.emptySlot, [])
    ∧ (virtio_dev_init { magic := VIRTIO_MAGIC, version := 2, deviceID := 2, deviceFeatures := 0,
                         retainsFeaturesOK := false }).1 = VirtioInitResult.featuresRejected :=
  ⟨(virtio_dev_init_failure_modes _).1 (by decide),
   (virtio_dev_init_failure_modes _).2.1 (by decide) (by decide),
   (virtio_dev_init_failure_modes _).2.2.1 (by decide) (by decide) (by decide),
   (virtio_dev_init_failure_modes _).2.2.2 (by decide) (by decide) (by decide) (by decide)⟩
